import Mathlib

/-!
A verification development for the tbot Telegram client library.

The low-level client (`client.go`) is embedded shallowly: Go's `url.Values`
becomes an association list with the `Set`/`Get`/`Del` operations the client
uses, every request-building method becomes a pure function from its arguments
to the `Request` value handed to the transport (`doRequest` /
`doRequestWithFiles`), and network effects are passed in as explicit oracle
arguments.

The update acquisition and dispatch engine (Poller, Webhook Receiver,
Dispatcher, Handler Registry) is not part of the sources at hand; those
components are modelled from the design document and each such definition is
marked `Modelled from the spec:` in its doc comment.
-/

namespace Tbot

/-- Embedding of Go `url.Values` as the client uses it: a key/value map where
each key holds a single value (the client mutates values only through `Set`,
`Get` and `Del`, never `Add`, so a key never holds more than one value). -/
def Values : Type := List (String × String)

namespace Values

/-- The empty `url.Values{}`. -/
def empty : Values := []

/-- `url.Values.Set`: replace whatever was stored under `k` by `val`. -/
def set (v : Values) (k val : String) : Values :=
  (k, val) :: v.filter (fun p => p.1 != k)

/-- `url.Values.Get`: the value stored under `k`, or `""` when absent. -/
def get (v : Values) (k : String) : String :=
  match v.find? (fun p => p.1 == k) with
  | some p => p.2
  | none => ""

/-- `url.Values.Del`: remove the key `k` entirely. -/
def del (v : Values) (k : String) : Values :=
  v.filter (fun p => p.1 != k)

/-- Whether the map holds an entry for key `k`. -/
def hasKey (v : Values) (k : String) : Bool :=
  v.any (fun p => p.1 == k)

end Values

/-- Embedding of `inputFile`: one multipart file attachment, a form field name
plus the file name to upload under it. -/
structure InputFile where
  field : String
  name : String
deriving Repr, DecidableEq

/-- The request a client method ultimately hands to the transport: the remote
method name, the URL parameter map, and the multipart file attachments
(`files = []` exactly when the method calls `doRequest` rather than
`doRequestWithFiles`). -/
structure Request where
  method : String
  params : Values
  files : List InputFile

/-- Embedding of `SendOption`: a mutation of the URL parameter map. -/
def SendOption : Type := Values → Values

/-- The option-application loop `for _, opt := range opts { opt(req) }`. -/
def applyOpts (req : Values) (opts : List SendOption) : Values :=
  opts.foldl (fun r o => o r) req

/-- Embedding of `OptThumb`: sets the `thumb` parameter to a file name. -/
def OptThumb (filename : String) : SendOption :=
  fun v => v.set "thumb" filename

/-- Embedding of `OptParseModeHTML`. -/
def OptParseModeHTML : SendOption :=
  fun r => r.set "parse_mode" "HTML"

/-- An option that stores `p.2` under key `p.1`, the shape every concrete
option of the library has (each one performs a single `Set`). -/
def setterOpt (p : String × String) : SendOption :=
  fun r => r.set p.1 p.2

/-- Embedding of the `Client` struct fields that carry data (the HTTP client
and the logger are capabilities, not data, and are left out). -/
structure Client where
  token : String
  url : String
  baseURL : String
  filesTrailURL : String
  nextOffset : Int
  bufferSize : Int
  timeout : Int
  updatesParams : Values

/-- Embedding of `Client.setWebhook`: builds `req` with the single entry
`url = webhookURL` and issues the remote method `setWebhook`. -/
def setWebhook (webhookURL : String) : Request :=
  { method := "setWebhook"
    params := Values.empty.set "url" webhookURL
    files := [] }

/-- Embedding of `Client.deleteWebhook` in state-passing style: the method
hands `("deleteWebhook", url.Values{})` to `doRequest` and neither reads nor
writes any client field, so the client state passes through unchanged. -/
def deleteWebhookCall (c : Client) : Request × Client :=
  ({ method := "deleteWebhook", params := Values.empty, files := [] }, c)

/-- Embedding of `Client.SendMessage`: sets `chat_id` and `text`, then applies
the options in order, then issues `sendMessage` with no file attachments. -/
def sendMessage (chatID text : String) (opts : List SendOption) : Request :=
  let req := (Values.empty.set "chat_id" chatID).set "text" text
  let req := applyOpts req opts
  { method := "sendMessage", params := req, files := [] }

/-- The parameter map `SendAnimation` has built right after setting `chat_id`
and `animation` and running the option loop, before the thumb check. -/
def animParams (chatID fileID : String) (opts : List SendOption) : Values :=
  applyOpts ((Values.empty.set "chat_id" chatID).set "animation" fileID) opts

/-- Embedding of `Client.SendAnimation`: sets `chat_id` and `animation`,
applies the options, and if the resulting `thumb` value is non-empty
(`len(req.Get("thumb")) > 0`) deletes it from the URL parameters and attaches
it as a multipart file under field `thumb`. -/
def sendAnimation (chatID fileID : String) (opts : List SendOption) : Request :=
  let req := animParams chatID fileID opts
  if 0 < (req.get "thumb").length then
    { method := "sendAnimation"
      params := req.del "thumb"
      files := [{ field := "thumb", name := req.get "thumb" }] }
  else
    { method := "sendAnimation", params := req, files := [] }

/-- The parameter map `SendVideoNote` has built right after setting `chat_id`
and `video_note` and running the option loop, before the thumb check. -/
def videoNoteParams (chatID fileID : String) (opts : List SendOption) : Values :=
  applyOpts ((Values.empty.set "chat_id" chatID).set "video_note" fileID) opts

/-- Embedding of `Client.SendVideoNote`: sets `chat_id` and `video_note`,
applies the options, and treats a non-empty `thumb` value exactly as
`SendAnimation` does. -/
def sendVideoNote (chatID fileID : String) (opts : List SendOption) : Request :=
  let req := videoNoteParams chatID fileID opts
  if 0 < (req.get "thumb").length then
    { method := "sendVideoNote"
      params := req.del "thumb"
      files := [{ field := "thumb", name := req.get "thumb" }] }
  else
    { method := "sendVideoNote", params := req, files := [] }

/-- Embedding of the `File` struct. -/
structure File where
  fileID : String
  fileSize : Int
  filePath : String
deriving Repr, DecidableEq

/-- The visible part of an `http.Response`: status code and body. -/
structure HTTPResponse where
  statusCode : Nat
  body : String
deriving Repr, DecidableEq

/-- Outcome of `httpClient.Do`: a network failure or a response. -/
inductive HTTPOutcome where
  | failure (msg : String)
  | response (resp : HTTPResponse)
deriving Repr, DecidableEq

/-- Embedding of `Client.DownloadFile`. The three effectful steps are passed
as oracles: `newReqErr` is the error of `http.NewRequest` if any, `outcome`
the outcome of `httpClient.Do`, and `readErr` the error of reading the body
if any. Returns the result (the Go original returns a nil reader exactly when
it returns a non-nil error, so `Except` captures both) together with the
number of HTTP requests actually performed. -/
def downloadFile (file : File) (newReqErr : Option String)
    (outcome : HTTPOutcome) (readErr : Option String) :
    Except String String × Nat :=
  if file.filePath.length = 0 then
    (Except.error "filepath is empty", 0)
  else
    match newReqErr with
    | some e => (Except.error ("failed to create request, " ++ e), 0)
    | none =>
      match outcome with
      | HTTPOutcome.failure e => (Except.error ("failed to download file, " ++ e), 1)
      | HTTPOutcome.response resp =>
        if resp.statusCode != 200 then
          (Except.error ("received status code is " ++ toString resp.statusCode ++ ", not 200"), 1)
        else
          match readErr with
          | some e => (Except.error ("failed to read response body, " ++ e), 1)
          | none => (Except.ok resp.body, 1)

/-- Modelled from the spec: an Update is an immutable record with a
monotonically increasing `UpdateID` and one populated payload variant; only
the identifier and the message text matter to the claims below, the other
variants are collapsed into `messageText = none`. The Update type itself is
not among the sources at hand. -/
structure Update where
  updateID : Int
  messageText : Option String := none
deriving Repr, DecidableEq

/-- Modelled from the spec: the Transport collaborator supplies the three
update-stream operations `getUpdates(offset, limit, timeout) -> []Update`,
`setWebhook(url)` and `deleteWebhook()`. The webhook operations build the
requests embedded above from `client.go`; `getUpdates` is not among the
sources at hand, so only its spec-given signature is modelled. -/
structure Transport where
  getUpdates : Int → Int → Int → List Update
  setWebhookOp : String → Request
  deleteWebhookOp : Client → Request × Client

/-- The canonical Transport: the webhook operations are the ones the client
sources build, `getUpdates` is left as a parameter (its body is remote). -/
def clientTransport (fetch : Int → Int → Int → List Update) : Transport :=
  { getUpdates := fetch
    setWebhookOp := setWebhook
    deleteWebhookOp := deleteWebhookCall }

/-- Modelled from the spec: the maximum `UpdateID` of a batch (meaningful for
nonempty batches; the empty batch never advances the cursor). -/
def maxUpdateID : List Update → Int
  | [] => 0
  | u :: rest => rest.foldl (fun m v => max m v.updateID) u.updateID

/-- Modelled from the spec: after a batch has been handed off entirely, the
cursor advances to `max(UpdateID) + 1`; an empty batch leaves it unchanged. -/
def advanceCursor (cursor : Int) (batch : List Update) : Int :=
  if batch.isEmpty then cursor else maxUpdateID batch + 1

/-- Modelled from the spec: the Poller hands the updates of one batch to the
Dispatcher one at a time, synchronously, in batch order; the trace records the
handed-off `UpdateID`s in handoff order. -/
def dispatchBatch (trace : List Int) (batch : List Update) : List Int :=
  batch.foldl (fun t u => t ++ [u.updateID]) trace

/-- Modelled from the spec: one iteration of the polling loop over a
simulated transport `fetch` mapping an offset to the batch `getUpdates`
returns for it: fetch at the current cursor, hand off every update, then
advance the cursor. The state is the dispatch trace plus the cursor. -/
def pollRound (fetch : Int → List Update) (s : List Int × Int) : List Int × Int :=
  let batch := fetch s.2
  (dispatchBatch s.1 batch, advanceCursor s.2 batch)

/-- Modelled from the spec: the polling session after `n` loop iterations;
the Poller starts with an empty trace and the cursor created at 0. -/
def pollSession (fetch : Int → List Update) : Nat → List Int × Int
  | 0 => ([], 0)
  | n + 1 => pollRound fetch (pollSession fetch n)

/-- Modelled from the spec: a well-behaved Transport never returns an update
whose `UpdateID` lies below the offset it was asked for (the remote contract
behind `offset = highest acknowledged UpdateID + 1`). -/
def TransportHonorsOffset (fetch : Int → List Update) : Prop :=
  ∀ off : Int, ∀ u ∈ fetch off, off ≤ u.updateID

/-- Modelled from the spec: the outcome of one handler invocation — success,
or a returned/raised error. -/
inductive HandlerOutcome where
  | success
  | failure (msg : String)
deriving Repr, DecidableEq

/-- Modelled from the spec: the Dispatcher invokes the matched handler of
each update in order; a failing invocation is caught at the Dispatcher
boundary and logged, and does not stop subsequent dispatch. Returns the
`UpdateID`s whose handler was invoked, in order, and the log of caught
errors. -/
def dispatchAll (handler : Update → HandlerOutcome) (batch : List Update) :
    List Int × List String :=
  batch.foldl
    (fun acc u =>
      match handler u with
      | HandlerOutcome.success => (acc.1 ++ [u.updateID], acc.2)
      | HandlerOutcome.failure msg => (acc.1 ++ [u.updateID], acc.2 ++ [msg]))
    ([], [])

/-- Modelled from the spec: the mutual-exclusion state of the two Update
Sources — whether the Poller loop is running and whether a webhook is
currently registered with the remote service. -/
structure SourceState where
  pollerActive : Bool
  webhookRegistered : Bool
deriving Repr, DecidableEq

/-- Modelled from the spec: `Poller.Start` fails fast — returns an error and
does not begin the polling loop — when a webhook is currently registered. -/
def pollerStart (s : SourceState) : Except String SourceState :=
  if s.webhookRegistered then Except.error "webhook is registered"
  else Except.ok { s with pollerActive := true }

/-- Modelled from the spec: `WebhookReceiver.Register` fails when a Poller is
currently active (the same mutual-exclusion invariant, enforced from the
webhook side). -/
def webhookRegister (s : SourceState) : Except String SourceState :=
  if s.pollerActive then Except.error "poller is active"
  else Except.ok { s with webhookRegistered := true }

/-- Modelled from the spec: `Poller.Stop` exits the loop. -/
def pollerStop (s : SourceState) : SourceState :=
  { s with pollerActive := false }

/-- Modelled from the spec: `WebhookReceiver.Unregister` deletes the
webhook. -/
def webhookUnregister (s : SourceState) : SourceState :=
  { s with webhookRegistered := false }

/-- The four operations that change which Update Source is active. -/
inductive SourceOp where
  | start
  | register
  | stop
  | unregister
deriving Repr, DecidableEq

/-- One operation applied to the source state; a failed `start` or
`register` leaves the state unchanged (the error is returned to the caller
and no loop begins). -/
def applyOp (s : SourceState) (op : SourceOp) : SourceState :=
  match op with
  | SourceOp.start =>
    match pollerStart s with
    | Except.ok t => t
    | Except.error _ => s
  | SourceOp.register =>
    match webhookRegister s with
    | Except.ok t => t
    | Except.error _ => s
  | SourceOp.stop => pollerStop s
  | SourceOp.unregister => webhookUnregister s

/-- A sequence of source operations run from a state. -/
def runOps (s : SourceState) (ops : List SourceOp) : SourceState :=
  ops.foldl applyOp s

/-- The state at process start: no Poller running, no webhook registered. -/
def initialState : SourceState :=
  { pollerActive := false, webhookRegistered := false }

/-- Modelled from the spec: a handler pattern — an exact command string, a
command-token head match, or a catch-all predicate on the text. -/
inductive HandlerPattern where
  | exactCommand (cmd : String)
  | headCommand (tok : String)
  | catchAll (pred : String → Bool)

/-- Modelled from the spec: a Handler Entry of the registry — a pattern plus
the identity of the callback it carries. -/
structure HandlerEntry where
  pattern : HandlerPattern
  handlerId : Nat

/-- The specificity tier of a pattern: exact command match before head/token
match before catch-all predicate. -/
def tier : HandlerPattern → Nat
  | HandlerPattern.exactCommand _ => 0
  | HandlerPattern.headCommand _ => 1
  | HandlerPattern.catchAll _ => 2

/-- Whether a pattern matches a message text. -/
def patternMatches (p : HandlerPattern) (text : String) : Bool :=
  match p with
  | HandlerPattern.exactCommand c => text == c
  | HandlerPattern.headCommand tok => text.startsWith tok
  | HandlerPattern.catchAll f => f text

/-- The first entry of the given tier matching the text, in insertion
order. -/
def findInTier (entries : List HandlerEntry) (t : Nat) (text : String) :
    Option HandlerEntry :=
  entries.find? (fun e => tier e.pattern == t && patternMatches e.pattern text)

/-- Modelled from the spec: `Match(update)` returns zero or one handler,
selected by specificity order — the exact tier is scanned first, then the
head-match tier, then the catch-alls — with first match winning within a tier
and insertion order as the tie-break. -/
def matchText (entries : List HandlerEntry) (text : String) : Option HandlerEntry :=
  match findInTier entries 0 text with
  | some e => some e
  | none =>
    match findInTier entries 1 text with
    | some e => some e
    | none => findInTier entries 2 text

/-- The catch-all predicate of the routing scenario: matches every text. -/
def demoCatchAll : String → Bool := fun _ => true

/-- The routing scenario registry: a handler for the exact command `/start`
registered first, then a catch-all handler. -/
def demoRegistry : List HandlerEntry :=
  [ { pattern := HandlerPattern.exactCommand "/start", handlerId := 0 },
    { pattern := HandlerPattern.catchAll demoCatchAll, handlerId := 1 } ]

/-- Two catch-all entries registered in sequence, to exhibit the insertion
order tie-break within one tier. -/
def demoTieRegistry : List HandlerEntry :=
  [ { pattern := HandlerPattern.catchAll demoCatchAll, handlerId := 5 },
    { pattern := HandlerPattern.catchAll demoCatchAll, handlerId := 6 } ]

/-- A concrete simulated transport: one pending batch with UpdateIDs 1 and 3,
served to any offset at most 1, nothing afterwards. -/
def demoFetch : Int → List Update :=
  fun off => if off ≤ 1 then [{ updateID := 1 }, { updateID := 3 }] else []

/-- A concrete handler that fails on UpdateID 1 and succeeds elsewhere. -/
def demoHandler : Update → HandlerOutcome :=
  fun u =>
    if u.updateID = 1 then HandlerOutcome.failure "boom" else HandlerOutcome.success

/-- Helper: `Set` followed by `Get` of the same key yields the new value. -/
theorem Values.get_set_self (v : Values) (k val : String) :
    (v.set k val).get k = val := by
  simp [Values.set, Values.get, List.find?]

/-- Helper: dropping the entries of key `k` does not change lookups of a
different key `q`. -/
theorem Values.find?_filter_ne (v : Values) (k q : String) (hne : q ≠ k) :
    (v.filter (fun p => p.1 != k)).find? (fun p => p.1 == q) =
      v.find? (fun p => p.1 == q) := by
  induction v with
  | nil => rfl
  | cons a rest ih =>
    by_cases h : a.1 = k
    · have hq : (a.1 == q) = false := by
        rw [h, beq_eq_false_iff_ne]
        exact Ne.symm hne
      have hb : (a.1 != k) = false := by simp [h]
      rw [List.filter_cons, hb, if_neg Bool.false_ne_true, ih, List.find?_cons, hq]
    · have hb : (a.1 != k) = true := by simp [h]
      rw [List.filter_cons, hb, if_pos rfl, List.find?_cons, List.find?_cons]
      cases hq : (a.1 == q) <;> simp [ih]

/-- Helper: `Set` of key `k` leaves a `Get` of another key unchanged. -/
theorem Values.get_set_ne (v : Values) (k k' val : String) (h : k' ≠ k) :
    (v.set k val).get k' = v.get k' := by
  have hk : (k == k') = false := by simp [Ne.symm h]
  simp only [Values.set, Values.get, List.find?_cons, hk]
  rw [Values.find?_filter_ne v k k' h]

/-- Helper: after `Del` of key `k` the map holds no entry for `k`. -/
theorem Values.hasKey_del (v : Values) (k : String) :
    (v.del k).hasKey k = false := by
  induction v with
  | nil => rfl
  | cons a rest ih =>
    by_cases h : a.1 = k
    · simp [Values.del, List.filter_cons, h]
      exact ih
    · simp [Values.del, Values.hasKey, List.filter_cons, List.any_cons, h]

/-- Helper: running the option loop over a concatenation runs the two parts
in sequence. -/
theorem applyOpts_append (v : Values) (a b : List SendOption) :
    applyOpts v (a ++ b) = applyOpts (applyOpts v a) b := by
  simp [applyOpts, List.foldl_append]

/-- Helper: the option loop peels one option at a time. -/
theorem applyOpts_cons (v : Values) (o : SendOption) (rest : List SendOption) :
    applyOpts v (o :: rest) = applyOpts (o v) rest := rfl

/-- Helper: setter options that never write key `k` leave its value alone. -/
theorem applyOpts_setters_no_touch (v : Values) (l : List (String × String))
    (k : String) (h : ∀ p ∈ l, p.1 ≠ k) :
    (applyOpts v (l.map setterOpt)).get k = v.get k := by
  induction l generalizing v with
  | nil => rfl
  | cons a rest ih =>
    have ha : a.1 ≠ k := h a (by simp)
    rw [List.map_cons, applyOpts_cons]
    show (applyOpts (v.set a.1 a.2) (rest.map setterOpt)).get k = v.get k
    rw [ih (v.set a.1 a.2) (fun p hp => h p (by simp [hp]))]
    exact Values.get_set_ne v a.1 k a.2 (Ne.symm ha)

/-- Claim C6: the Transport supplies the three update-stream operations
`getUpdates(offset, limit, timeout)`, `setWebhook(url)` and `deleteWebhook()`
(the first is modelled from the spec, the other two are embedded from
`client.go`); `setWebhook(u)` issues the remote method `setWebhook` with a
parameter map whose only entry is `url ↦ u`, and `deleteWebhook()` issues the
remote method `deleteWebhook` with an empty parameter map. -/
theorem transport_update_stream_operations (u : String) (c : Client)
    (fetch : Int → Int → Int → List Update) :
    (clientTransport fetch).setWebhookOp u =
      { method := "setWebhook", params := [("url", u)], files := [] } ∧
    ((clientTransport fetch).deleteWebhookOp c).1 =
      { method := "deleteWebhook", params := [], files := [] } ∧
    (clientTransport fetch).getUpdates = fetch := by
  refine ⟨rfl, rfl, rfl⟩

/-- Claim C7: `deleteWebhook` is idempotent — it reads and writes no client
state, and every invocation builds the identical `deleteWebhook` request with
an empty parameter map, so calling it twice in succession is equivalent to
calling it once. -/
theorem deleteWebhook_idempotent (c : Client) :
    (deleteWebhookCall c).2 = c ∧
    deleteWebhookCall (deleteWebhookCall c).2 = deleteWebhookCall c ∧
    (deleteWebhookCall c).1 =
      { method := "deleteWebhook", params := Values.empty, files := [] } := by
  refine ⟨rfl, rfl, rfl⟩

/-- Claim C9: `DownloadFile` on a `File` with an empty `FilePath` returns an
error without performing any HTTP request, and whenever the HTTP response has
a status code other than 200 it returns an error (the Go original returns a
nil reader exactly when it returns a non-nil error). -/
theorem downloadFile_error_paths (file : File) (newReqErr : Option String)
    (outcome : HTTPOutcome) (readErr : Option String) (resp : HTTPResponse) :
    (file.filePath = "" →
      (downloadFile file newReqErr outcome readErr).1 = Except.error "filepath is empty" ∧
      (downloadFile file newReqErr outcome readErr).2 = 0) ∧
    (outcome = HTTPOutcome.response resp → resp.statusCode ≠ 200 →
      ∃ e, (downloadFile file newReqErr outcome readErr).1 = Except.error e) := by
  constructor
  · intro hpath
    have hlen : file.filePath.length = 0 := by rw [hpath]; rfl
    constructor <;> simp [downloadFile, hlen]
  · intro houtcome hstatus
    subst houtcome
    by_cases hlen : file.filePath.length = 0
    · exact ⟨"filepath is empty", by simp [downloadFile, hlen]⟩
    · cases newReqErr with
      | some e => exact ⟨"failed to create request, " ++ e, by simp [downloadFile, hlen]⟩
      | none =>
        have hne : (resp.statusCode != 200) = true := by simpa using hstatus
        exact ⟨"received status code is " ++ toString resp.statusCode ++ ", not 200",
          by simp [downloadFile, hlen, hne]⟩

/-- Claim C9 witness: an empty `FilePath` yields the error with zero requests,
and a 404 response yields an error. -/
theorem downloadFile_error_paths_witness :
    ((downloadFile { fileID := "id", fileSize := 0, filePath := "" } none
        (HTTPOutcome.response { statusCode := 404, body := "" }) none).1 =
      Except.error "filepath is empty" ∧
     (downloadFile { fileID := "id", fileSize := 0, filePath := "" } none
        (HTTPOutcome.response { statusCode := 404, body := "" }) none).2 = 0) ∧
    (∃ e, (downloadFile { fileID := "id", fileSize := 0, filePath := "p" } none
        (HTTPOutcome.response { statusCode := 404, body := "" }) none).1 =
      Except.error e) :=
  ⟨(downloadFile_error_paths { fileID := "id", fileSize := 0, filePath := "" } none
      (HTTPOutcome.response { statusCode := 404, body := "" }) none
      { statusCode := 404, body := "" }).1 rfl,
   (downloadFile_error_paths { fileID := "id", fileSize := 0, filePath := "p" } none
      (HTTPOutcome.response { statusCode := 404, body := "" }) none
      { statusCode := 404, body := "" }).2 rfl (by decide)⟩

/-- Claim C8 counterexample: `OptThumb ""` is an option that sets the `thumb`
parameter, yet the request `SendAnimation` issues still contains the `thumb`
key in its URL parameter map (with the empty value) and carries no file
attachment — the source only moves `thumb` into a multipart attachment when
its value is non-empty (`len(req.Get("thumb")) > 0`). -/
theorem sendAnimation_empty_thumb_counterexample :
    (sendAnimation "1" "fid" [OptThumb ""]).params.hasKey "thumb" = true ∧
    (sendAnimation "1" "fid" [OptThumb ""]).files = [] := by
  constructor <;> rfl

/-- Claim C8 (amended): whenever the option loop leaves a non-empty value for
the `thumb` parameter, the issued request contains no `thumb` key in its URL
parameter map and instead carries that value as a multipart file attachment
under field `thumb`; whenever the final `thumb` value is empty (in particular
when no option sets `thumb`), the request is issued without any file
attachments. Both `SendAnimation` and `SendVideoNote` behave this way. -/
theorem thumb_moved_to_attachment (chatID fileID : String) (opts : List SendOption) :
    (0 < ((animParams chatID fileID opts).get "thumb").length →
      (sendAnimation chatID fileID opts).params.hasKey "thumb" = false ∧
      (sendAnimation chatID fileID opts).files =
        [{ field := "thumb", name := (animParams chatID fileID opts).get "thumb" }]) ∧
    (((animParams chatID fileID opts).get "thumb").length = 0 →
      (sendAnimation chatID fileID opts).files = []) ∧
    (0 < ((videoNoteParams chatID fileID opts).get "thumb").length →
      (sendVideoNote chatID fileID opts).params.hasKey "thumb" = false ∧
      (sendVideoNote chatID fileID opts).files =
        [{ field := "thumb", name := (videoNoteParams chatID fileID opts).get "thumb" }]) ∧
    (((videoNoteParams chatID fileID opts).get "thumb").length = 0 →
      (sendVideoNote chatID fileID opts).files = []) := by
  refine ⟨fun h => ?_, fun h => ?_, fun h => ?_, fun h => ?_⟩
  · rw [sendAnimation, if_pos h]
    exact ⟨Values.hasKey_del _ "thumb", rfl⟩
  · rw [sendAnimation, if_neg (by omega)]
  · rw [sendVideoNote, if_pos h]
    exact ⟨Values.hasKey_del _ "thumb", rfl⟩
  · rw [sendVideoNote, if_neg (by omega)]

/-- Claim C8 witness: with `OptThumb "t.jpg"` the animation request drops the
`thumb` URL parameter and attaches the file; with no options there is no
attachment. -/
theorem thumb_moved_to_attachment_witness :
    ((sendAnimation "1" "f" [OptThumb "t.jpg"]).params.hasKey "thumb" = false ∧
     (sendAnimation "1" "f" [OptThumb "t.jpg"]).files =
       [{ field := "thumb", name := (animParams "1" "f" [OptThumb "t.jpg"]).get "thumb" }]) ∧
    (sendVideoNote "1" "f" []).files = [] :=
  ⟨(thumb_moved_to_attachment "1" "f" [OptThumb "t.jpg"]).1 (by decide),
   (thumb_moved_to_attachment "1" "f" []).2.2.2 (by decide)⟩

/-- Claim C10: every request-building method applies its required parameters
first and then the variadic option list in argument order, each option
overwriting any existing value for its key: among options that write the same
key the last write wins, options that never write a key leave the required
value in place, and an option can override a required parameter such as
`text` of `SendMessage`. -/
theorem send_option_last_write_wins (chatID text k v : String)
    (pre post sos : List (String × String))
    (hpost : ∀ p ∈ post, p.1 ≠ k)
    (hsos : ∀ p ∈ sos, p.1 ≠ "text") :
    (sendMessage chatID text ((pre ++ (k, v) :: post).map setterOpt)).params.get k = v ∧
    (sendMessage chatID text (sos.map setterOpt)).params.get "text" = text ∧
    (sendMessage chatID text [setterOpt ("text", v)]).params.get "text" = v := by
  refine ⟨?_, ?_, ?_⟩
  · show (applyOpts _ ((pre ++ (k, v) :: post).map setterOpt)).get k = v
    rw [List.map_append, applyOpts_append, List.map_cons, applyOpts_cons]
    show (applyOpts (Values.set _ k v) (post.map setterOpt)).get k = v
    rw [applyOpts_setters_no_touch _ post k hpost]
    exact Values.get_set_self _ k v
  · show (applyOpts _ (sos.map setterOpt)).get "text" = text
    rw [applyOpts_setters_no_touch _ sos "text" hsos]
    exact Values.get_set_self _ "text" text
  · show (applyOpts _ [setterOpt ("text", v)]).get "text" = v
    exact Values.get_set_self _ "text" v

/-- Claim C10 witness: a later option overwrites an earlier one for the same
key, options of other keys leave `text` alone, and an option overrides the
required `text` parameter. -/
theorem send_option_last_write_wins_witness :
    (sendMessage "9" "hi"
      ([("parse_mode", "HTML"), ("text", "override"), ("chat_id", "7")].map setterOpt)).params.get
        "text" = "override" ∧
    (sendMessage "9" "hi" ([("parse_mode", "HTML")].map setterOpt)).params.get "text" = "hi" ∧
    (sendMessage "9" "hi" [setterOpt ("text", "override")]).params.get "text" = "override" := by
  have h := send_option_last_write_wins "9" "hi" "text" "override"
    [("parse_mode", "HTML")] [("chat_id", "7")] [("parse_mode", "HTML")]
    (by decide) (by decide)
  exact ⟨h.1, h.2.1, h.2.2⟩

/-- Helper: a fold of `max` never drops below its start. -/
theorem le_foldl_max (l : List Update) (b : Int) :
    b ≤ l.foldl (fun m v => max m v.updateID) b := by
  induction l generalizing b with
  | nil => exact le_refl b
  | cons x rest ih =>
    exact le_trans (le_max_left b x.updateID) (ih (max b x.updateID))

/-- Helper: the cursor never moves backwards when every update of the batch
sits at or above it. -/
theorem le_advanceCursor (c : Int) (batch : List Update)
    (h : ∀ u ∈ batch, c ≤ u.updateID) :
    c ≤ advanceCursor c batch := by
  cases batch with
  | nil => exact le_refl c
  | cons u rest =>
    have hu : c ≤ u.updateID := h u (by simp)
    have hmax : u.updateID ≤ maxUpdateID (u :: rest) := le_foldl_max rest u.updateID
    simp only [advanceCursor, List.isEmpty_cons, Bool.false_eq_true, if_false]
    omega

/-- Helper: handing off a batch appends exactly its UpdateIDs, in batch
order, to the dispatch trace. -/
theorem dispatchBatch_eq_append (trace : List Int) (batch : List Update) :
    dispatchBatch trace batch = trace ++ batch.map (fun u => u.updateID) := by
  induction batch generalizing trace with
  | nil => simp [dispatchBatch]
  | cons u rest ih =>
    show dispatchBatch (trace ++ [u.updateID]) rest = _
    rw [ih]
    simp

/-- Claim C1: over any simulated transport honoring the offset contract, the
offset cursor is created at 0 at Poller start; each round the entire batch is
handed to the Dispatcher (the trace grows by exactly the batch, in order)
and only then does the cursor move, advancing to exactly max(UpdateID)+1 of a
nonempty batch; and the cursor never decreases over the polling session. -/
theorem poller_cursor_lifecycle (fetch : Int → List Update)
    (hfetch : TransportHonorsOffset fetch) :
    (pollSession fetch 0).2 = 0 ∧
    (∀ n : Nat, (pollSession fetch n).2 ≤ (pollSession fetch (n + 1)).2) ∧
    (∀ n : Nat,
      (pollSession fetch (n + 1)).1 =
        (pollSession fetch n).1 ++
          (fetch (pollSession fetch n).2).map (fun u => u.updateID)) ∧
    (∀ n : Nat, fetch (pollSession fetch n).2 ≠ [] →
      (pollSession fetch (n + 1)).2 = maxUpdateID (fetch (pollSession fetch n).2) + 1) := by
  refine ⟨rfl, ?_, ?_, ?_⟩
  · intro n
    exact le_advanceCursor _ _ (fun u hu => hfetch _ u hu)
  · intro n
    exact dispatchBatch_eq_append _ _
  · intro n hne
    show advanceCursor _ _ = _
    rw [advanceCursor, if_neg]
    simp [List.isEmpty_iff, hne]

/-- Claim C1 witness: the demo transport honors the offset contract; the
first round from Poller start hands off the batch [1, 3] and moves the cursor
from 0 to max(UpdateID)+1. -/
theorem poller_cursor_lifecycle_witness :
    (pollSession demoFetch 0).2 = 0 ∧
    (pollSession demoFetch 0).2 ≤ (pollSession demoFetch 1).2 ∧
    (pollSession demoFetch 1).1 = [1, 3] ∧
    (pollSession demoFetch 1).2 = maxUpdateID (demoFetch (pollSession demoFetch 0).2) + 1 := by
  have hhon : TransportHonorsOffset demoFetch := by
    intro off u hu
    by_cases h : off ≤ 1
    · simp only [demoFetch, if_pos h, List.mem_cons, List.not_mem_nil, or_false] at hu
      rcases hu with h1 | h1
      · rw [h1]
        show off ≤ 1
        omega
      · rw [h1]
        show off ≤ 3
        omega
    · simp [demoFetch, h] at hu
  have h := poller_cursor_lifecycle demoFetch hhon
  refine ⟨h.1, h.2.1 0, ?_, h.2.2.2 0 (by decide)⟩
  rw [h.2.2.1 0]
  rfl

/-- Claim C2: within a single batch the Poller hands the updates to the
Dispatcher synchronously, one at a time in batch order, so the handoff trace
is exactly the batch's UpdateID sequence and — a batch being delivered in
ascending UpdateID order — every smaller UpdateID is handed off before every
larger one. -/
theorem batch_dispatched_in_ascending_order (batch : List Update)
    (hasc : (batch.map (fun u => u.updateID)).Pairwise (· < ·)) :
    dispatchBatch [] batch = batch.map (fun u => u.updateID) ∧
    (dispatchBatch [] batch).Pairwise (· < ·) := by
  refine ⟨dispatchBatch_eq_append [] batch, ?_⟩
  rw [dispatchBatch_eq_append]
  simpa using hasc

/-- Claim C2 witness: the ascending batch [1, 2] is handed off as [1, 2]. -/
theorem batch_dispatched_in_ascending_order_witness :
    dispatchBatch [] [{ updateID := 1 }, { updateID := 2 }] =
      List.map (fun u : Update => u.updateID)
        [{ updateID := 1 }, { updateID := 2 }] ∧
    (dispatchBatch [] [{ updateID := 1 }, { updateID := 2 }]).Pairwise (· < ·) :=
  batch_dispatched_in_ascending_order [{ updateID := 1 }, { updateID := 2 }]
    (by simp)

/-- Helper: one source operation preserves "not both sources active". -/
theorem applyOp_preserves_exclusion (s : SourceState) (op : SourceOp)
    (h : s.pollerActive = false ∨ s.webhookRegistered = false) :
    (applyOp s op).pollerActive = false ∨ (applyOp s op).webhookRegistered = false := by
  cases s with
  | mk a b => cases op <;> cases a <;> cases b <;> revert h <;> decide

/-- Helper: a run of source operations preserves "not both sources
active". -/
theorem runOps_preserves_exclusion (ops : List SourceOp) (s : SourceState)
    (h : s.pollerActive = false ∨ s.webhookRegistered = false) :
    (runOps s ops).pollerActive = false ∨ (runOps s ops).webhookRegistered = false := by
  induction ops generalizing s with
  | nil => exact h
  | cons op rest ih => exact ih (applyOp s op) (applyOp_preserves_exclusion s op h)

/-- Claim C3: starting the Poller while a webhook is registered returns an
error and does not begin the polling loop (the state is unchanged);
registering the Webhook Receiver while a Poller is active fails
symmetrically; and along every sequence of source operations from process
start, at most one Update Source is active. -/
theorem update_source_mutual_exclusion :
    (∀ s : SourceState, s.webhookRegistered = true →
      pollerStart s = Except.error "webhook is registered" ∧
      applyOp s SourceOp.start = s) ∧
    (∀ s : SourceState, s.pollerActive = true →
      webhookRegister s = Except.error "poller is active" ∧
      applyOp s SourceOp.register = s) ∧
    (∀ ops : List SourceOp,
      (runOps initialState ops).pollerActive = false ∨
      (runOps initialState ops).webhookRegistered = false) := by
  refine ⟨?_, ?_, ?_⟩
  · intro s hs
    have h1 : pollerStart s = Except.error "webhook is registered" := by
      rw [pollerStart, if_pos hs]
    exact ⟨h1, by simp [applyOp, h1]⟩
  · intro s hs
    have h1 : webhookRegister s = Except.error "poller is active" := by
      rw [webhookRegister, if_pos hs]
    exact ⟨h1, by simp [applyOp, h1]⟩
  · intro ops
    exact runOps_preserves_exclusion ops initialState (Or.inl rfl)

/-- Claim C3 witness: the two failure modes at concrete states, and the
exclusion invariant after registering a webhook and then attempting to start
the Poller. -/
theorem update_source_mutual_exclusion_witness :
    pollerStart { pollerActive := false, webhookRegistered := true } =
      Except.error "webhook is registered" ∧
    webhookRegister { pollerActive := true, webhookRegistered := false } =
      Except.error "poller is active" ∧
    ((runOps initialState [SourceOp.register, SourceOp.start]).pollerActive = false ∨
      (runOps initialState [SourceOp.register, SourceOp.start]).webhookRegistered = false) :=
  ⟨(update_source_mutual_exclusion.1 { pollerActive := false, webhookRegistered := true } rfl).1,
   (update_source_mutual_exclusion.2.1 { pollerActive := true, webhookRegistered := false } rfl).1,
   update_source_mutual_exclusion.2.2 [SourceOp.register, SourceOp.start]⟩

/-- Claim C4: a failing handler invocation is caught at the Dispatcher
boundary — the dispatcher returns normally, only logging the error — so when
U1's handler fails and U2's succeeds, both handlers are invoked in order, the
log records exactly U1's error, and the cursor advances past both UpdateIDs
from any starting value. -/
theorem handler_failure_does_not_stop_dispatch
    (handler : Update → HandlerOutcome) (u1 u2 : Update) (msg : String)
    (hfail : handler u1 = HandlerOutcome.failure msg)
    (hok : handler u2 = HandlerOutcome.success) :
    (dispatchAll handler [u1, u2]).1 = [u1.updateID, u2.updateID] ∧
    (dispatchAll handler [u1, u2]).2 = [msg] ∧
    (∀ c : Int, u1.updateID < advanceCursor c [u1, u2] ∧
      u2.updateID < advanceCursor c [u1, u2]) := by
  refine ⟨?_, ?_, ?_⟩
  · simp [dispatchAll, hfail, hok]
  · simp [dispatchAll, hfail, hok]
  · intro c
    have hadv : advanceCursor c [u1, u2] = max u1.updateID u2.updateID + 1 := rfl
    have h1 := le_max_left u1.updateID u2.updateID
    have h2 := le_max_right u1.updateID u2.updateID
    rw [hadv]
    omega

/-- Claim C4 witness: with the demo handler failing on UpdateID 1 and
succeeding on 2, both updates are dispatched, the log holds the one error,
and the cursor passes both. -/
theorem handler_failure_does_not_stop_dispatch_witness :
    (dispatchAll demoHandler [{ updateID := 1 }, { updateID := 2 }]).1 = [1, 2] ∧
    (dispatchAll demoHandler [{ updateID := 1 }, { updateID := 2 }]).2 = ["boom"] ∧
    ((1 : Int) < advanceCursor 0 [{ updateID := 1 }, { updateID := 2 }] ∧
      (2 : Int) < advanceCursor 0 [{ updateID := 1 }, { updateID := 2 }]) := by
  have h := handler_failure_does_not_stop_dispatch demoHandler
    { updateID := 1 } { updateID := 2 } "boom" (by decide) (by decide)
  exact ⟨h.1, h.2.1, h.2.2 0⟩

/-- Helper: an entry found in a tier matches the text. -/
theorem findInTier_matches (entries : List HandlerEntry) (t : Nat) (text : String)
    (e : HandlerEntry) (h : findInTier entries t text = some e) :
    patternMatches e.pattern text = true := by
  have hp := List.find?_some h
  simp only [Bool.and_eq_true] at hp
  exact hp.2

/-- Claim C5: `Match` returns zero or one handler (an `Option`); a returned
entry's pattern matches the text; the exact-command tier takes priority over
the lower tiers; and in the registered scenario the message "/start" selects
only the `/start` handler, "hello" selects only the catch-all, and two
entries of one tier are tie-broken by insertion order. -/
theorem route_match_specificity :
    (∀ entries text e, matchText entries text = some e →
      patternMatches e.pattern text = true) ∧
    (∀ entries text, (findInTier entries 0 text).isSome = true →
      matchText entries text = findInTier entries 0 text) ∧
    (matchText demoRegistry "/start").map (fun e => e.handlerId) = some 0 ∧
    (matchText demoRegistry "hello").map (fun e => e.handlerId) = some 1 ∧
    (matchText demoTieRegistry "hi").map (fun e => e.handlerId) = some 5 := by
  refine ⟨?_, ?_, by decide, by decide, by decide⟩
  · intro entries text e h
    rw [matchText] at h
    cases h0 : findInTier entries 0 text with
    | some e0 =>
      rw [h0] at h
      injection h with he
      subst he
      exact findInTier_matches entries 0 text e0 h0
    | none =>
      rw [h0] at h
      cases h1 : findInTier entries 1 text with
      | some e1 =>
        rw [h1] at h
        injection h with he
        subst he
        exact findInTier_matches entries 1 text e1 h1
      | none =>
        rw [h1] at h
        exact findInTier_matches entries 2 text e h
  · intro entries text h
    rw [matchText]
    cases h0 : findInTier entries 0 text with
    | some e0 => rfl
    | none => rw [h0] at h; simp at h

/-- Claim C5 witness: the matched entry for "/start" on the scenario registry
does match the text, and the exact tier decides the match. -/
theorem route_match_specificity_witness :
    patternMatches
      (HandlerPattern.exactCommand "/start" : HandlerPattern) "/start" = true ∧
    matchText demoRegistry "/start" = findInTier demoRegistry 0 "/start" :=
  ⟨route_match_specificity.1 demoRegistry "/start"
      { pattern := HandlerPattern.exactCommand "/start", handlerId := 0 } rfl,
   route_match_specificity.2.1 demoRegistry "/start" rfl⟩

end Tbot
